import Mathlib

/-!
Verification of the update-resolution workflow
(`src/AppInstallerCLICore/Workflows/UpdateFlow.cpp`).

The workflow file is embedded shallowly: the execution context becomes an
explicit record threaded through the pipeline steps, the reporter becomes an
output list shared between a parent context and its clones, and a
programmer-contract violation (reading missing context data, which the real
context surfaces as a fatal exception) becomes `Except.error`.  External
collaborators that the workflow file only calls — the manifest comparator,
`GetInstalledPackageVersion`, `InstallMultiplePackages` — are parameters of
the embedded functions.  The `Utility::Version` value type is not part of the
workflow file, so it is modelled from the spec.
-/

set_option autoImplicit false

namespace UpdateFlow

/-- Modelled from the spec: `Version` is "parsed from a string; total order by
component comparison; carries an `IsLatest` flag set when the string equals a
reserved latest sentinel value".  Missing trailing components compare as
zero. -/
structure Version where
  components : List Nat
  isLatest : Bool
  deriving DecidableEq

/-- Modelled from the spec: strict component-wise (lexicographic) comparison of
version component lists, padding the shorter list with zeros. -/
def componentsLt : List Nat → List Nat → Bool
  | [], bs => bs.any (fun b => decide (0 < b))
  | a :: as, [] => decide (a < 0) || ((a == 0) && componentsLt as [])
  | a :: as, b :: bs => decide (a < b) || ((a == b) && componentsLt as bs)

/-- Modelled from the spec: parsing splits the version string on `.` into
numeric components; the latest sentinel is recognised case-insensitively. -/
def splitComponents : List Char → List (List Char)
  | [] => [[]]
  | c :: rest =>
    let r := splitComponents rest
    if c == '.' then [] :: r
    else
      match r with
      | [] => [[c]]
      | h :: t => (c :: h) :: t

/-- Modelled from the spec: a numeric version component read from its digits. -/
def charsToNat (cs : List Char) : Nat :=
  cs.foldl (fun acc c => acc * 10 + (c.toNat - 48)) 0

/-- Modelled from the spec: the reserved "latest" sentinel string,
compared case-insensitively. -/
def latestSentinel : List Char := ['l', 'a', 't', 'e', 's', 't']

/-- Modelled from the spec: parse a version string into its components and the
`IsLatest` flag. -/
def parseVersion (s : String) : Version :=
  { components := (splitComponents s.data).map charsToNat,
    isLatest := s.data.map Char.toLower == latestSentinel }

/-- Modelled from the spec: the strict order `installed < candidate` used by the
applicability predicate, by component comparison. -/
def versionLt (a b : Version) : Bool :=
  componentsLt a.components b.components

/-- UpdateFlow.cpp line 17: `IsUpdateVersionApplicable`. -/
def IsUpdateVersionApplicable (installedVersion updateVersion : Version) : Bool :=
  versionLt installedVersion updateVersion || updateVersion.isLatest

/-- Modelled from the spec: the bitmask values of `InapplicabilityFlags`
(one OR-combined value per rejected installer is returned by the
comparator).  `std::find` in the workflow compares an element for equality
with `InstalledType`, i.e. looks for an installer whose only rejection
reason is the installed technology. -/
def InapplicabilityFlags.OsVersion : Nat := 1

/-- Modelled from the spec: bitmask value, see `InapplicabilityFlags.OsVersion`. -/
def InapplicabilityFlags.InstalledScope : Nat := 2

/-- Modelled from the spec: bitmask value, see `InapplicabilityFlags.OsVersion`. -/
def InapplicabilityFlags.InstalledType : Nat := 4

/-- Modelled from the spec: bitmask value, see `InapplicabilityFlags.OsVersion`. -/
def InapplicabilityFlags.InstalledLocale : Nat := 8

/-- Modelled from the spec: bitmask value, see `InapplicabilityFlags.OsVersion`. -/
def InapplicabilityFlags.Locale : Nat := 16

/-- Modelled from the spec: bitmask value, see `InapplicabilityFlags.OsVersion`. -/
def InapplicabilityFlags.Scope : Nat := 32

/-- Modelled from the spec: bitmask value, see `InapplicabilityFlags.OsVersion`. -/
def InapplicabilityFlags.MachineArchitecture : Nat := 64

/-- Modelled from the spec: bitmask value, see `InapplicabilityFlags.OsVersion`. -/
def InapplicabilityFlags.Market : Nat := 128

/-- Modelled from the spec: the benign "update not applicable" terminal code. -/
def APPINSTALLER_CLI_ERROR_UPDATE_NOT_APPLICABLE : Nat := 0x8A15002B

/-- Modelled from the spec: the "batch has failures" code handed to the
batch-install collaborator. -/
def APPINSTALLER_CLI_ERROR_UPDATE_ALL_HAS_FAILURE : Nat := 0x8A15002C

/-- The resource strings the workflow file writes to the reporter, plus the
label it passes to `InstallMultiplePackages`. -/
inductive ResourceString where
  | UpgradeDifferentInstallTechnologyInNewerVersions
  | UpdateNotApplicable
  | InstallAndUpgradeCommandsReportDependencies
  deriving DecidableEq

/-- One concrete installable artifact; the workflow only reads its locale
(applied to the manifest) — other applicability attributes live behind the
comparator parameter.  `url` stands for the remaining identifying fields. -/
structure Installer where
  locale : String
  url : String
  deriving DecidableEq

/-- Package metadata for one version: `Id`, `Version` and the locale state
changed by `ApplyLocale`. -/
structure Manifest where
  id : String
  version : String
  currentLocale : String
  deriving DecidableEq

/-- `manifest.ApplyLocale(installer->Locale)`: activates the given locale on
the manifest. -/
def Manifest.ApplyLocale (manifest : Manifest) (locale : String) : Manifest :=
  { manifest with currentLocale := locale }

/-- A resolved available version: its manifest and the
`PackageVersionProperty::SourceIdentifier` property. -/
structure PackageVersion where
  sourceIdentifier : String
  manifest : Manifest
  deriving DecidableEq

/-- An entry of `GetAvailableVersionKeys`; `Version` is a string parsed with
`Utility::Version` where used. -/
structure VersionKey where
  version : String
  deriving DecidableEq

/-- A package: its pre-sorted (newest-first) version keys and the resolution
`GetAvailableVersion` of a key to a `PackageVersion`. -/
structure Package where
  versionKeys : List VersionKey
  getAvailableVersion : VersionKey → PackageVersion

/-- The installed package version: the `Version` property string and the
metadata handed to the `ManifestComparator` constructor (kept opaque). -/
structure InstalledPackageVersion where
  versionString : String
  metadata : String
  deriving DecidableEq

/-- `Execution::PackageToInstall` as built by `UpdateAllApplicable`. -/
structure PackageToInstall where
  packageVersion : PackageVersion
  installedPackageVersion : InstalledPackageVersion
  manifest : Manifest
  installer : Installer
  packageSubExecutionId : Nat
  deriving DecidableEq

/-- One entry of the search result's `Matches`. -/
structure SearchMatch where
  package : Package

/-- The execution context: the typed data store becomes one optional field per
`Execution::Data` key used in the workflow file, the terminal slot becomes
`termination`, and the reporter's sink becomes the `output` list. -/
structure Context where
  package : Option Package
  installedPackageVersion : Option InstalledPackageVersion
  manifest : Option Manifest
  packageVersion : Option PackageVersion
  installer : Option Installer
  packagesToInstall : Option (List PackageToInstall)
  searchResult : Option (List SearchMatch)
  termination : Option Nat
  output : List ResourceString

/-- Modelled from the spec: `context.Clone()` produces a context with an
independent (empty) data store and terminal slot but the shared output sink
(here: the parent's output so far, threaded back to the parent afterwards). -/
def Context.Clone (context : Context) : Context :=
  { package := none, installedPackageVersion := none, manifest := none,
    packageVersion := none, installer := none, packagesToInstall := none,
    searchResult := none, termination := none, output := context.output }

/-- The pipeline operator `context << step`: a step runs only when no
exception is pending and the context is not terminated. -/
def runStep (step : Context → Except String Context) :
    Except String Context → Except String Context
  | Except.error e => Except.error e
  | Except.ok context =>
    if context.termination.isSome then Except.ok context else step context

/-- Modelled from the spec: `ReportExecutionStage` only emits telemetry, which
is out of scope; it changes nothing observable in the embedded context. -/
def ReportExecutionStage (context : Context) : Except String Context :=
  Except.ok context

/-- The manifest comparator interface: constructed from the installed
package's metadata, `GetPreferredInstaller` returns the selected installer (if
any) and the per-rejected-installer inapplicability flag values. -/
def ComparatorFactory : Type :=
  String → Manifest → Option Installer × List Nat

/-- UpdateFlow.cpp line 22: `AddToPackagesToInstallIfNotPresent`'s duplicate
test — same manifest `Id`, same manifest `Version`, same
`SourceIdentifier` property of the package version. -/
def isSamePackageToInstall (existing package : PackageToInstall) : Bool :=
  existing.manifest.id == package.manifest.id &&
  existing.manifest.version == package.manifest.version &&
  existing.packageVersion.sourceIdentifier == package.packageVersion.sourceIdentifier

/-- UpdateFlow.cpp line 22: `AddToPackagesToInstallIfNotPresent`: return
without inserting as soon as an existing entry matches the duplicate test,
otherwise append at the end. -/
def AddToPackagesToInstallIfNotPresent (packagesToInstall : List PackageToInstall)
    (package : PackageToInstall) : List PackageToInstall :=
  if packagesToInstall.any (fun existing => isSamePackageToInstall existing package) then
    packagesToInstall
  else
    packagesToInstall ++ [package]

/-- Result of the version-key loop of `SelectLatestApplicableUpdate`
(lines 49–85): either the populated data of the chosen update, or no update
together with the final `installedTypeInapplicable` flag. -/
inductive ScanResult where
  | found (manifest : Manifest) (packageVersion : PackageVersion) (installer : Installer)
  | notFound (installedTypeInapplicable : Bool)
  deriving DecidableEq

/-- UpdateFlow.cpp lines 49–85: the loop over the version keys.  For an
applicable version, resolve it and run installer selection; keep scanning when
every installer is rejected (recording whether some installer's only rejection
reason was `InstalledType`); break with the populated data on selection; break
without examining later keys on the first inapplicable version. -/
def scanVersionKeys (getPreferredInstaller : Manifest → Option Installer × List Nat)
    (package : Package) (installedVersion : Version)
    (installedTypeInapplicable : Bool) : List VersionKey → ScanResult
  | [] => ScanResult.notFound installedTypeInapplicable
  | key :: rest =>
    if IsUpdateVersionApplicable installedVersion (parseVersion key.version) then
      let packageVersion := package.getAvailableVersion key
      let manifest := packageVersion.manifest
      match getPreferredInstaller manifest with
      | (none, inapplicabilities) =>
        scanVersionKeys getPreferredInstaller package installedVersion
          (installedTypeInapplicable ||
            inapplicabilities.contains InapplicabilityFlags.InstalledType) rest
      | (some installer, _) =>
        ScanResult.found (manifest.ApplyLocale installer.locale) packageVersion installer
    else
      ScanResult.notFound installedTypeInapplicable

/-- UpdateFlow.cpp line 38: `SelectLatestApplicableUpdate::operator()`.
Reads `Package` and `InstalledPackageVersion` from the context (missing data
is a fatal contract violation), scans the version keys, and either populates
`Manifest`/`PackageVersion`/`Installer`, or reports (when
`m_reportUpdateNotFound`) and terminates with the not-applicable code. -/
def SelectLatestApplicableUpdate (manifestComparator : ComparatorFactory)
    (reportUpdateNotFound : Bool) (context : Context) : Except String Context :=
  match context.package, context.installedPackageVersion with
  | some package, some installedPackage =>
    let installedVersion := parseVersion installedPackage.versionString
    match scanVersionKeys (manifestComparator installedPackage.metadata) package
        installedVersion false package.versionKeys with
    | ScanResult.found manifest packageVersion installer =>
      Except.ok { context with
        manifest := some manifest,
        packageVersion := some packageVersion,
        installer := some installer }
    | ScanResult.notFound installedTypeInapplicable =>
      let context1 :=
        if reportUpdateNotFound then
          if installedTypeInapplicable then
            { context with output :=
              context.output ++ [ResourceString.UpgradeDifferentInstallTechnologyInNewerVersions] }
          else
            { context with output :=
              context.output ++ [ResourceString.UpdateNotApplicable] }
        else context
      Except.ok { context1 with
        termination := some APPINSTALLER_CLI_ERROR_UPDATE_NOT_APPLICABLE }
  | _, _ => Except.error "missing required context data"

/-- UpdateFlow.cpp line 105: `EnsureUpdateVersionApplicable`: re-validate the
context's current `Manifest` version against the installed version with the
same predicate; report and terminate with the same code when it fails. -/
def EnsureUpdateVersionApplicable (context : Context) : Except String Context :=
  match context.installedPackageVersion, context.manifest with
  | some installedPackage, some manifest =>
    let installedVersion := parseVersion installedPackage.versionString
    let updateVersion := parseVersion manifest.version
    if !IsUpdateVersionApplicable installedVersion updateVersion then
      Except.ok { context with
        output := context.output ++ [ResourceString.UpdateNotApplicable],
        termination := some APPINSTALLER_CLI_ERROR_UPDATE_NOT_APPLICABLE }
    else
      Except.ok context
  | _, _ => Except.error "missing required context data"

/-- UpdateFlow.cpp lines 129–137: the per-match pipeline — clone the parent
context (sharing the output sink, here `sharedOutput`), add the match's
`Package`, then run `GetInstalledPackageVersion`, `ReportExecutionStage` and
`SelectLatestApplicableUpdate(false)` through the pipeline operator. -/
def updateItemPipeline (getInstalledPackageVersion : Context → Except String Context)
    (manifestComparator : ComparatorFactory) (parent : Context)
    (package : Package) : Except String Context :=
  runStep (SelectLatestApplicableUpdate manifestComparator false)
    (runStep ReportExecutionStage
      (runStep getInstalledPackageVersion
        (Except.ok { parent.Clone with package := some package })))

/-- UpdateFlow.cpp lines 124–154: the loop of `UpdateAllApplicable`.  The
parent context is threaded so that clone output (shared sink) accumulates in
it; `subExecutionId` models the per-item sub-execution telemetry scope id.
After the pipeline, a clone terminated with the not-applicable code is
skipped; otherwise the chosen data is read from the clone (missing data is a
fatal contract violation) and the `PackageToInstall` is added if not
present. -/
def updateAllLoop (getInstalledPackageVersion : Context → Except String Context)
    (manifestComparator : ComparatorFactory) (subExecutionId : Nat)
    (context : Context) (packagesToInstall : List PackageToInstall)
    (updateAllFoundUpdate : Bool) :
    List SearchMatch → Except String (Context × List PackageToInstall × Bool)
  | [] => Except.ok (context, packagesToInstall, updateAllFoundUpdate)
  | m :: rest =>
    match updateItemPipeline getInstalledPackageVersion manifestComparator context
        m.package with
    | Except.error e => Except.error e
    | Except.ok updateContext =>
      if updateContext.termination == some APPINSTALLER_CLI_ERROR_UPDATE_NOT_APPLICABLE then
        updateAllLoop getInstalledPackageVersion manifestComparator
          (subExecutionId + 1) { context with output := updateContext.output }
          packagesToInstall updateAllFoundUpdate rest
      else
        match updateContext.packageVersion, updateContext.installedPackageVersion,
            updateContext.manifest, updateContext.installer with
        | some packageVersion, some installedPackageVersion, some manifest, some installer =>
          let package : PackageToInstall :=
            { packageVersion := packageVersion,
              installedPackageVersion := installedPackageVersion,
              manifest := manifest,
              installer := installer,
              packageSubExecutionId := subExecutionId }
          updateAllLoop getInstalledPackageVersion manifestComparator
            (subExecutionId + 1) { context with output := updateContext.output }
            (AddToPackagesToInstallIfNotPresent packagesToInstall package) true rest
        | _, _, _, _ => Except.error "missing required context data"

/-- UpdateFlow.cpp line 118: `UpdateAllApplicable`.  Runs the loop over the
search result's matches; if no update was found, reports the not-applicable
message on the parent and returns; otherwise adds the collected list to the
context and runs the `InstallMultiplePackages` collaborator with the
dependency-reporting label, the batch-failure code, and the ignorable
not-applicable code. -/
def UpdateAllApplicable (getInstalledPackageVersion : Context → Except String Context)
    (manifestComparator : ComparatorFactory)
    (installMultiplePackages : ResourceString → Nat → List Nat → Context → Except String Context)
    (context : Context) : Except String Context :=
  match context.searchResult with
  | none => Except.error "missing required context data"
  | some searchMatches =>
    match updateAllLoop getInstalledPackageVersion manifestComparator 1 context [] false
        searchMatches with
    | Except.error e => Except.error e
    | Except.ok (context1, packagesToInstall, updateAllFoundUpdate) =>
      if !updateAllFoundUpdate then
        Except.ok { context1 with
          output := context1.output ++ [ResourceString.UpdateNotApplicable] }
      else
        runStep
          (installMultiplePackages ResourceString.InstallAndUpgradeCommandsReportDependencies
            APPINSTALLER_CLI_ERROR_UPDATE_ALL_HAS_FAILURE
            [APPINSTALLER_CLI_ERROR_UPDATE_NOT_APPLICABLE])
          (Except.ok { context1 with packagesToInstall := some packagesToInstall })

/-- Follows the words of the amended flavour rule (refinement definition, not
taken from the source): scanning the keys in order, some applicable version
that was skipped (no installer selected) had at least one installer whose only
rejection reason was `InstalledType`; the walk mirrors the scan — it ends at a
selected installer or at the first inapplicable version. -/
def someSkipHadPureInstalledTypeRejection
    (getPreferredInstaller : Manifest → Option Installer × List Nat)
    (package : Package) (installedVersion : Version) : List VersionKey → Bool
  | [] => false
  | key :: rest =>
    if IsUpdateVersionApplicable installedVersion (parseVersion key.version) then
      match getPreferredInstaller (package.getAvailableVersion key).manifest with
      | (none, inapplicabilities) =>
        inapplicabilities.contains InapplicabilityFlags.InstalledType ||
          someSkipHadPureInstalledTypeRejection getPreferredInstaller package
            installedVersion rest
      | (some _, _) => false
    else false

/-- An execution context holding nothing yet. -/
def emptyContext : Context :=
  { package := none, installedPackageVersion := none, manifest := none,
    packageVersion := none, installer := none, packagesToInstall := none,
    searchResult := none, termination := none, output := [] }

/-! Concrete fixtures used by the per-claim witnesses and counterexamples.
Each group is named after the claim that uses it. -/

/-- C2 fixture: installed version `2.0`. -/
def c2Installed : InstalledPackageVersion := { versionString := "2.0", metadata := "meta" }

/-- C2 fixture: manifest of version `3.0`. -/
def c2Manifest30 : Manifest := { id := "Pkg", version := "3.0", currentLocale := "" }

/-- C2 fixture: manifest of version `2.5`. -/
def c2Manifest25 : Manifest := { id := "Pkg", version := "2.5", currentLocale := "" }

/-- C2 fixture: resolved version `3.0`. -/
def c2PackageVersion30 : PackageVersion := { sourceIdentifier := "src", manifest := c2Manifest30 }

/-- C2 fixture: resolved version `2.5`. -/
def c2PackageVersion25 : PackageVersion := { sourceIdentifier := "src", manifest := c2Manifest25 }

/-- C2 fixture: package with keys `[3.0, 2.5]`, newest first. -/
def c2PackageA : Package :=
  { versionKeys := [⟨"3.0"⟩, ⟨"2.5"⟩],
    getAvailableVersion := fun key =>
      if key.version == "3.0" then c2PackageVersion30 else c2PackageVersion25 }

/-- C2 fixture: manifest of version `1.5`. -/
def c2Manifest15 : Manifest := { id := "Pkg", version := "1.5", currentLocale := "" }

/-- C2 fixture: manifest of version `1.0`. -/
def c2Manifest10 : Manifest := { id := "Pkg", version := "1.0", currentLocale := "" }

/-- C2 fixture: resolved version `1.5`. -/
def c2PackageVersion15 : PackageVersion := { sourceIdentifier := "src", manifest := c2Manifest15 }

/-- C2 fixture: resolved version `1.0`. -/
def c2PackageVersion10 : PackageVersion := { sourceIdentifier := "src", manifest := c2Manifest10 }

/-- C2 fixture: package with keys `[1.5, 1.0]`, all older than the installed
`2.0`. -/
def c2PackageB : Package :=
  { versionKeys := [⟨"1.5"⟩, ⟨"1.0"⟩],
    getAvailableVersion := fun key =>
      if key.version == "1.5" then c2PackageVersion15 else c2PackageVersion10 }

/-- C2 fixture: the installer selected for version `2.5`. -/
def c2InstallerSel : Installer := { locale := "en-US", url := "u25" }

/-- C2 fixture: a comparator that rejects every installer of version `3.0`
solely for `InstalledType` and selects one for any other version. -/
def c2Comparator : ComparatorFactory := fun _ manifest =>
  if manifest.version == "3.0" then (none, [InapplicabilityFlags.InstalledType])
  else (some c2InstallerSel, [])

/-- C2 fixture: context holding the `[3.0, 2.5]` package. -/
def c2ContextA : Context :=
  { emptyContext with package := some c2PackageA, installedPackageVersion := some c2Installed }

/-- C2 fixture: context holding the `[1.5, 1.0]` package. -/
def c2ContextB : Context :=
  { emptyContext with package := some c2PackageB, installedPackageVersion := some c2Installed }

/-- C5 fixture: installed version `1.0`. -/
def c5Installed : InstalledPackageVersion := { versionString := "1.0", metadata := "meta" }

/-- C5 fixture: manifest of version `2.0`. -/
def c5Manifest20 : Manifest := { id := "Pkg5", version := "2.0", currentLocale := "" }

/-- C5 fixture: resolved version `2.0`. -/
def c5PackageVersion20 : PackageVersion := { sourceIdentifier := "src", manifest := c5Manifest20 }

/-- C5 fixture: package with the single key `2.0`. -/
def c5Package : Package :=
  { versionKeys := [⟨"2.0"⟩], getAvailableVersion := fun _ => c5PackageVersion20 }

/-- C5 fixture: a comparator rejecting one installer solely for
`InstalledType` and a second installer for `MachineArchitecture` — mixed
reasons across the version, not purely installed-type. -/
def c5Comparator : ComparatorFactory := fun _ _ =>
  (none, [InapplicabilityFlags.InstalledType, InapplicabilityFlags.MachineArchitecture])

/-- C5 fixture: context holding the package and the installed version. -/
def c5Context : Context :=
  { emptyContext with package := some c5Package, installedPackageVersion := some c5Installed }

/-- C7 fixture: installed version `2.0`. -/
def c7Installed : InstalledPackageVersion := { versionString := "2.0", metadata := "meta" }

/-- C7 fixture: manifest of version `3.0`. -/
def c7Manifest30 : Manifest := { id := "Pkg7", version := "3.0", currentLocale := "" }

/-- C7 fixture: resolved version `3.0`. -/
def c7PackageVersion30 : PackageVersion := { sourceIdentifier := "src", manifest := c7Manifest30 }

/-- C7 fixture: the selected installer with locale `fr-FR`. -/
def c7InstallerSel : Installer := { locale := "fr-FR", url := "u30" }

/-- C7 fixture: package with the single key `3.0`. -/
def c7Package : Package :=
  { versionKeys := [⟨"3.0"⟩], getAvailableVersion := fun _ => c7PackageVersion30 }

/-- C7 fixture: a comparator that always selects `c7InstallerSel`. -/
def c7Comparator : ComparatorFactory := fun _ _ => (some c7InstallerSel, [])

/-- C7 fixture: context holding the package and the installed version. -/
def c7Context : Context :=
  { emptyContext with package := some c7Package, installedPackageVersion := some c7Installed }

/-- C8 fixture: installed version `2.0`. -/
def c8Installed : InstalledPackageVersion := { versionString := "2.0", metadata := "meta" }

/-- C8 fixture: an arbitrary resolved version (never resolved by the scan). -/
def c8PackageVersion : PackageVersion :=
  { sourceIdentifier := "src", manifest := { id := "Pkg8", version := "1.0", currentLocale := "" } }

/-- C8 fixture: package with an empty key list. -/
def c8Package : Package :=
  { versionKeys := [], getAvailableVersion := fun _ => c8PackageVersion }

/-- C8 fixture: a comparator that never selects. -/
def c8Comparator : ComparatorFactory := fun _ _ => (none, [])

/-- C8 fixture: context holding the package and the installed version. -/
def c8Context : Context :=
  { emptyContext with package := some c8Package, installedPackageVersion := some c8Installed }

/-- C9 fixture: installed version `2.0`. -/
def c9Installed : InstalledPackageVersion := { versionString := "2.0", metadata := "meta" }

/-- C9 fixture: a manifest newer than the installed version. -/
def c9ManifestNew : Manifest := { id := "Pkg9", version := "3.0", currentLocale := "" }

/-- C9 fixture: a manifest older than the installed version. -/
def c9ManifestOld : Manifest := { id := "Pkg9", version := "1.0", currentLocale := "" }

/-- C9 fixture: context whose selected manifest is newer than installed. -/
def c9ContextFresh : Context :=
  { emptyContext with installedPackageVersion := some c9Installed, manifest := some c9ManifestNew }

/-- C9 fixture: context whose selected manifest is older than installed. -/
def c9ContextStale : Context :=
  { emptyContext with installedPackageVersion := some c9Installed, manifest := some c9ManifestOld }

/-- C10 fixture: installed version `2.0`. -/
def c10Installed : InstalledPackageVersion := { versionString := "2.0", metadata := "meta" }

/-- C10 fixture: resolved version `1.0` (older than installed). -/
def c10PackageVersion : PackageVersion :=
  { sourceIdentifier := "src", manifest := { id := "PkgX", version := "1.0", currentLocale := "" } }

/-- C10 fixture: package with the single, older key `1.0`. -/
def c10Package : Package :=
  { versionKeys := [⟨"1.0"⟩], getAvailableVersion := fun _ => c10PackageVersion }

/-- C10 fixture: a comparator that never selects. -/
def c10Comparator : ComparatorFactory := fun _ _ => (none, [])

/-- C10 fixture: context holding the package and the installed version. -/
def c10Context : Context :=
  { emptyContext with package := some c10Package, installedPackageVersion := some c10Installed }

/-- C10 fixture: the silent (reporting-disabled) run's result on `c10Context`:
terminated with the not-applicable code, nothing written. -/
def c10Result : Context :=
  { c10Context with termination := some APPINSTALLER_CLI_ERROR_UPDATE_NOT_APPLICABLE }

/-- C3 fixture: a resolved version for the package (never reached). -/
def c3PackageVersion : PackageVersion :=
  { sourceIdentifier := "src", manifest := { id := "Pkg3", version := "3.0", currentLocale := "" } }

/-- C3 fixture: a package with one key. -/
def c3Package : Package :=
  { versionKeys := [⟨"3.0"⟩], getAvailableVersion := fun _ => c3PackageVersion }

/-- C3 fixture: a `GetInstalledPackageVersion` collaborator that terminates the
clone with a code different from the update-not-applicable code (999, standing
for any hard per-item failure). -/
def c3GetInstalledBad (context : Context) : Except String Context :=
  Except.ok { context with termination := some 999 }

/-- C3 fixture: a comparator that never selects (never reached). -/
def c3Comparator : ComparatorFactory := fun _ _ => (none, [])

/-- C3 fixture: a batch-install collaborator that does nothing. -/
def c3Install (_ : ResourceString) (_ : Nat) (_ : List Nat) (context : Context) :
    Except String Context :=
  Except.ok context

/-- C3 fixture: parent context with a two-match search result. -/
def c3Context : Context :=
  { emptyContext with searchResult := some [⟨c3Package⟩, ⟨c3Package⟩] }

/-- C4 fixture: installed version `2.0`. -/
def c4Installed : InstalledPackageVersion := { versionString := "2.0", metadata := "meta" }

/-- C4 fixture: the resolved version shared by the two duplicate matches —
same package id `A`, version `3.0`, source identifier `s1`. -/
def c4PackageVersionA : PackageVersion :=
  { sourceIdentifier := "s1", manifest := { id := "A", version := "3.0", currentLocale := "" } }

/-- C4 fixture: the distinct resolved version — package id `B`. -/
def c4PackageVersionB : PackageVersion :=
  { sourceIdentifier := "s1", manifest := { id := "B", version := "3.0", currentLocale := "" } }

/-- C4 fixture: first match's package, resolving to `c4PackageVersionA`. -/
def c4PackageX : Package :=
  { versionKeys := [⟨"3.0"⟩], getAvailableVersion := fun _ => c4PackageVersionA }

/-- C4 fixture: second match's package, resolving to the same underlying
`c4PackageVersionA` (found through another discovery path). -/
def c4PackageY : Package :=
  { versionKeys := [⟨"3.0"⟩], getAvailableVersion := fun _ => c4PackageVersionA }

/-- C4 fixture: third match's package, resolving to the distinct
`c4PackageVersionB`. -/
def c4PackageZ : Package :=
  { versionKeys := [⟨"3.0"⟩], getAvailableVersion := fun _ => c4PackageVersionB }

/-- C4 fixture: the installer every manifest selects. -/
def c4InstallerSel : Installer := { locale := "en-US", url := "u4" }

/-- C4 fixture: a comparator that always selects `c4InstallerSel`. -/
def c4Comparator : ComparatorFactory := fun _ _ => (some c4InstallerSel, [])

/-- C4 fixture: a `GetInstalledPackageVersion` collaborator that records the
installed version `2.0`. -/
def c4GetInstalled (context : Context) : Except String Context :=
  Except.ok { context with installedPackageVersion := some c4Installed }

/-- C4 fixture: parent context with the three-match search result. -/
def c4Context : Context :=
  { emptyContext with searchResult := some [⟨c4PackageX⟩, ⟨c4PackageY⟩, ⟨c4PackageZ⟩] }

/-- C4 fixture: the decision record contributed by the first match. -/
def c4Entry1 : PackageToInstall :=
  { packageVersion := c4PackageVersionA,
    installedPackageVersion := c4Installed,
    manifest := c4PackageVersionA.manifest.ApplyLocale c4InstallerSel.locale,
    installer := c4InstallerSel,
    packageSubExecutionId := 1 }

/-- C4 fixture: the decision record contributed by the third match. -/
def c4Entry3 : PackageToInstall :=
  { packageVersion := c4PackageVersionB,
    installedPackageVersion := c4Installed,
    manifest := c4PackageVersionB.manifest.ApplyLocale c4InstallerSel.locale,
    installer := c4InstallerSel,
    packageSubExecutionId := 3 }

/-- C4 fixture: a batch-install collaborator that does nothing. -/
def c4Install (_ : ResourceString) (_ : Nat) (_ : List Nat) (context : Context) :
    Except String Context :=
  Except.ok context

/-- C6 fixture: installed version `2.0`. -/
def c6Installed : InstalledPackageVersion := { versionString := "2.0", metadata := "meta" }

/-- C6 fixture: resolved version `1.0` (older than installed). -/
def c6PackageVersion : PackageVersion :=
  { sourceIdentifier := "src", manifest := { id := "Pkg6", version := "1.0", currentLocale := "" } }

/-- C6 fixture: package whose only key `1.0` is older than the installed
version, so its clone terminates not-applicable. -/
def c6Package : Package :=
  { versionKeys := [⟨"1.0"⟩], getAvailableVersion := fun _ => c6PackageVersion }

/-- C6 fixture: a comparator that never selects (never reached). -/
def c6Comparator : ComparatorFactory := fun _ _ => (none, [])

/-- C6 fixture: a `GetInstalledPackageVersion` collaborator that records the
installed version `2.0`. -/
def c6GetInstalled (context : Context) : Except String Context :=
  Except.ok { context with installedPackageVersion := some c6Installed }

/-- C6 fixture: a batch-install collaborator that does nothing (must not be
reached). -/
def c6Install (_ : ResourceString) (_ : Nat) (_ : List Nat) (context : Context) :
    Except String Context :=
  Except.ok context

/-- C6 fixture: parent context with a single not-applicable match. -/
def c6Context : Context :=
  { emptyContext with searchResult := some [⟨c6Package⟩] }

/-! Order lemmas for the component-wise comparison. -/

theorem componentsLt_nil_right : ∀ as : List Nat, componentsLt as [] = false := by
  intro as
  induction as with
  | nil => rfl
  | cons a as ih => simp [componentsLt, ih]

theorem componentsLt_irrefl : ∀ as : List Nat, componentsLt as as = false := by
  intro as
  induction as with
  | nil => rfl
  | cons a as ih => simp [componentsLt, ih]

theorem componentsLt_asymm :
    ∀ as bs : List Nat, componentsLt as bs = true → componentsLt bs as = false := by
  intro as
  induction as with
  | nil => intro bs _; exact componentsLt_nil_right bs
  | cons a as ih =>
    intro bs h
    cases bs with
    | nil => rw [componentsLt_nil_right] at h; exact absurd h (by simp)
    | cons b bs =>
      simp only [componentsLt, Bool.or_eq_true, decide_eq_true_eq, Bool.and_eq_true,
        beq_iff_eq] at h
      rcases h with h | ⟨he, hlt⟩
      · have h1 : decide (b < a) = false := by simp; omega
        have h2 : (b == a) = false := by simp; omega
        simp [componentsLt, h1, h2]
      · subst he
        simp [componentsLt, ih bs hlt]

/-! Characterization lemmas for the version-key scan and the selection step. -/

theorem scanVersionKeys_found_spec
    (g : Manifest → Option Installer × List Nat) (package : Package)
    (installedVersion : Version) :
    ∀ (keys : List VersionKey) (iti : Bool) (m : Manifest) (pv : PackageVersion)
      (ins : Installer),
      scanVersionKeys g package installedVersion iti keys = ScanResult.found m pv ins →
      ∃ key ∈ keys, pv = package.getAvailableVersion key
        ∧ (g pv.manifest).1 = some ins
        ∧ m = pv.manifest.ApplyLocale ins.locale := by
  intro keys
  induction keys with
  | nil =>
    intro iti m pv ins h
    exact absurd h (by simp [scanVersionKeys])
  | cons key rest ih =>
    intro iti m pv ins h
    simp only [scanVersionKeys] at h
    split at h
    · split at h
      · obtain ⟨k, hk, hpv, hins, hm⟩ := ih _ _ _ _ h
        exact ⟨k, List.mem_cons_of_mem _ hk, hpv, hins, hm⟩
      · rename_i installer heq
        cases h
        refine ⟨key, List.mem_cons_self _ _, rfl, ?_, rfl⟩
        rw [heq]
    · exact absurd h (by simp)

theorem scanVersionKeys_notFound_flag
    (g : Manifest → Option Installer × List Nat) (package : Package)
    (installedVersion : Version) :
    ∀ (keys : List VersionKey) (iti b : Bool),
      scanVersionKeys g package installedVersion iti keys = ScanResult.notFound b →
      b = (iti || someSkipHadPureInstalledTypeRejection g package installedVersion keys) := by
  intro keys
  induction keys with
  | nil =>
    intro iti b h
    simp only [scanVersionKeys] at h
    cases h
    simp [someSkipHadPureInstalledTypeRejection]
  | cons key rest ih =>
    intro iti b h
    simp only [scanVersionKeys] at h
    split at h
    · rename_i hpred
      split at h
      · rename_i inapplicabilities heq
        have hb := ih _ _ h
        simp only [someSkipHadPureInstalledTypeRejection, hpred, if_pos, heq]
        rw [hb, Bool.or_assoc]
      · exact absurd h (by simp)
    · rename_i hpred
      cases h
      simp only [someSkipHadPureInstalledTypeRejection]
      rw [if_neg hpred]
      simp

/-- Unfolding lemma: with `Package` and `InstalledPackageVersion` present, the
selection step is determined by the scan result. -/
theorem selectLatest_eq (mc : ComparatorFactory) (r : Bool) (context : Context)
    (package : Package) (installedPackage : InstalledPackageVersion)
    (hp : context.package = some package)
    (hi : context.installedPackageVersion = some installedPackage) :
    SelectLatestApplicableUpdate mc r context =
      (match scanVersionKeys (mc installedPackage.metadata) package
          (parseVersion installedPackage.versionString) false package.versionKeys with
       | ScanResult.found m pv ins =>
         Except.ok { context with
           manifest := some m, packageVersion := some pv, installer := some ins }
       | ScanResult.notFound iti =>
         Except.ok { (if r then
             (if iti then
               { context with output := context.output ++
                 [ResourceString.UpgradeDifferentInstallTechnologyInNewerVersions] }
              else
               { context with output := context.output ++
                 [ResourceString.UpdateNotApplicable] })
           else context) with
           termination := some APPINSTALLER_CLI_ERROR_UPDATE_NOT_APPLICABLE }) := by
  simp only [SelectLatestApplicableUpdate, hp, hi]

/-- Unfolding lemma: with `Package` or `InstalledPackageVersion` missing, the
selection step raises the fatal missing-data contract violation. -/
theorem selectLatest_error_of_missing (mc : ComparatorFactory) (r : Bool)
    (context : Context)
    (h : context.package = none ∨ context.installedPackageVersion = none) :
    SelectLatestApplicableUpdate mc r context =
      Except.error "missing required context data" := by
  rcases h with h | h
  · simp only [SelectLatestApplicableUpdate, h]
  · cases hp : context.package <;> simp only [SelectLatestApplicableUpdate, hp, h]

/-- C1: `IsUpdateVersionApplicable(i, c)` is true iff `i < c` by component-wise
comparison or `c` carries the `IsLatest` flag; in particular it is false when
`i = c` or `i > c` (for a non-latest candidate), and true for any
latest-flagged candidate. -/
theorem isUpdateVersionApplicable_spec (i c : Version) :
    IsUpdateVersionApplicable i c = (versionLt i c || c.isLatest)
    ∧ (c.isLatest = true → IsUpdateVersionApplicable i c = true)
    ∧ (c.isLatest = false → i = c → IsUpdateVersionApplicable i c = false)
    ∧ (c.isLatest = false → versionLt c i = true → IsUpdateVersionApplicable i c = false) := by
  refine ⟨rfl, ?_, ?_, ?_⟩
  · intro h
    simp [IsUpdateVersionApplicable, h]
  · intro h he
    subst he
    simp [IsUpdateVersionApplicable, versionLt, h, componentsLt_irrefl]
  · intro h hlt
    simp [IsUpdateVersionApplicable, versionLt, h,
      componentsLt_asymm _ _ hlt]

/-- C1 witness: the predicate evaluated at `2.0` against a latest-flagged
candidate, against `2.0` itself, and against the older `1.0`. -/
theorem isUpdateVersionApplicable_spec_witness :
    IsUpdateVersionApplicable (parseVersion "2.0") (parseVersion "latest") = true
    ∧ IsUpdateVersionApplicable (parseVersion "2.0") (parseVersion "2.0") = false
    ∧ IsUpdateVersionApplicable (parseVersion "2.0") (parseVersion "1.0") = false :=
  ⟨(isUpdateVersionApplicable_spec (parseVersion "2.0") (parseVersion "latest")).2.1
      (by decide),
   (isUpdateVersionApplicable_spec (parseVersion "2.0") (parseVersion "2.0")).2.2.1
      (by decide) rfl,
   (isUpdateVersionApplicable_spec (parseVersion "2.0") (parseVersion "1.0")).2.2.2
      (by decide) (by decide)⟩

/-- C2: the scan stops at the first key whose version fails the applicability
predicate — the result does not depend on (never examines) the later keys;
when an applicable version's installer selection rejects every installer the
scan continues with the next older key; concretely, installed `2.0` with keys
`[3.0 (rejected, InstalledType), 2.5 (qualifies)]` selects `2.5`, and
installed `2.0` with keys `[1.5, 1.0]` finds no update, where by the first
part only the first key is examined. -/
theorem selectLatest_scan_order_spec :
    (∀ (g : Manifest → Option Installer × List Nat) (package : Package)
        (installedVersion : Version) (iti : Bool) (key : VersionKey)
        (rest : List VersionKey),
      IsUpdateVersionApplicable installedVersion (parseVersion key.version) = false →
      scanVersionKeys g package installedVersion iti (key :: rest) =
        ScanResult.notFound iti)
    ∧ (∀ (g : Manifest → Option Installer × List Nat) (package : Package)
        (installedVersion : Version) (iti : Bool) (key : VersionKey)
        (rest : List VersionKey) (inapplicabilities : List Nat),
      IsUpdateVersionApplicable installedVersion (parseVersion key.version) = true →
      g (package.getAvailableVersion key).manifest = (none, inapplicabilities) →
      scanVersionKeys g package installedVersion iti (key :: rest) =
        scanVersionKeys g package installedVersion
          (iti || inapplicabilities.contains InapplicabilityFlags.InstalledType) rest)
    ∧ SelectLatestApplicableUpdate c2Comparator true c2ContextA =
        Except.ok { c2ContextA with
          manifest := some (c2Manifest25.ApplyLocale "en-US"),
          packageVersion := some c2PackageVersion25,
          installer := some c2InstallerSel }
    ∧ SelectLatestApplicableUpdate c2Comparator true c2ContextB =
        Except.ok { c2ContextB with
          output := [ResourceString.UpdateNotApplicable],
          termination := some APPINSTALLER_CLI_ERROR_UPDATE_NOT_APPLICABLE } := by
  refine ⟨?_, ?_, rfl, rfl⟩
  · intro g package installedVersion iti key rest h
    simp [scanVersionKeys, h]
  · intro g package installedVersion iti key rest inapplicabilities h hsel
    simp [scanVersionKeys, h, hsel]

/-- C2 witness: the first part triggered by the older key `1.5` against
installed `2.0`, the second by the rejected version `3.0`. -/
theorem selectLatest_scan_order_spec_witness :
    scanVersionKeys (c2Comparator c2Installed.metadata) c2PackageB (parseVersion "2.0")
        false [⟨"1.5"⟩, ⟨"1.0"⟩] = ScanResult.notFound false
    ∧ scanVersionKeys (c2Comparator c2Installed.metadata) c2PackageA (parseVersion "2.0")
        false [⟨"3.0"⟩, ⟨"2.5"⟩] =
      scanVersionKeys (c2Comparator c2Installed.metadata) c2PackageA (parseVersion "2.0")
        (false || [InapplicabilityFlags.InstalledType].contains
          InapplicabilityFlags.InstalledType) [⟨"2.5"⟩] :=
  ⟨selectLatest_scan_order_spec.1 _ _ _ _ _ _ (by decide),
   selectLatest_scan_order_spec.2.1 _ _ _ _ _ _ _ (by decide) (by decide)⟩

/-- C5 counterexample: a skipped applicable version whose installer rejections
are mixed (one installer rejected solely for `InstalledType`, another for
`MachineArchitecture`) still gets the distinct "different install technology"
message, although not every rejection was purely `InstalledType`-caused. -/
theorem selectLatest_flavor_counterexample :
    SelectLatestApplicableUpdate c5Comparator true c5Context =
      Except.ok { c5Context with
        output := [ResourceString.UpgradeDifferentInstallTechnologyInNewerVersions],
        termination := some APPINSTALLER_CLI_ERROR_UPDATE_NOT_APPLICABLE }
    ∧ (c5Comparator c5Installed.metadata c5Manifest20).2 =
        [InapplicabilityFlags.InstalledType, InapplicabilityFlags.MachineArchitecture]
    ∧ InapplicabilityFlags.MachineArchitecture ≠ InapplicabilityFlags.InstalledType :=
  ⟨rfl, rfl, by decide⟩

/-- C5 amended: when the scan ends without a selection and reporting is
enabled, the distinct "different install technology" message is reported iff
at least one skipped applicable version had at least one installer whose only
rejection reason was `InstalledType`; otherwise the generic message; in both
cases the same benign terminal code results. -/
theorem selectLatest_flavor_amended (mc : ComparatorFactory) (context : Context)
    (package : Package) (installedPackage : InstalledPackageVersion) (b : Bool)
    (hp : context.package = some package)
    (hi : context.installedPackageVersion = some installedPackage)
    (hscan : scanVersionKeys (mc installedPackage.metadata) package
        (parseVersion installedPackage.versionString) false package.versionKeys
      = ScanResult.notFound b) :
    SelectLatestApplicableUpdate mc true context =
      Except.ok { context with
        output := context.output ++
          [if someSkipHadPureInstalledTypeRejection (mc installedPackage.metadata) package
              (parseVersion installedPackage.versionString) package.versionKeys
           then ResourceString.UpgradeDifferentInstallTechnologyInNewerVersions
           else ResourceString.UpdateNotApplicable],
        termination := some APPINSTALLER_CLI_ERROR_UPDATE_NOT_APPLICABLE } := by
  have hb := scanVersionKeys_notFound_flag _ _ _ _ _ _ hscan
  rw [Bool.false_or] at hb
  rw [selectLatest_eq mc true context package installedPackage hp hi, hscan, hb]
  cases hskip : someSkipHadPureInstalledTypeRejection (mc installedPackage.metadata) package
      (parseVersion installedPackage.versionString) package.versionKeys <;> rfl

/-- C5 amended witness: the mixed-reason fixture evaluates to the distinct
message, as one installer's only rejection reason was `InstalledType`. -/
theorem selectLatest_flavor_amended_witness :
    SelectLatestApplicableUpdate c5Comparator true c5Context =
      Except.ok { c5Context with
        output := c5Context.output ++
          [if someSkipHadPureInstalledTypeRejection (c5Comparator c5Installed.metadata)
              c5Package (parseVersion c5Installed.versionString) c5Package.versionKeys
           then ResourceString.UpgradeDifferentInstallTechnologyInNewerVersions
           else ResourceString.UpdateNotApplicable],
        termination := some APPINSTALLER_CLI_ERROR_UPDATE_NOT_APPLICABLE } :=
  selectLatest_flavor_amended c5Comparator c5Context c5Package c5Installed true rfl rfl
    (by decide)

/-- C7: on success — the scan found a version passing the predicate with a
selected installer — the step adds exactly `Manifest`, `PackageVersion` and
`Installer` to the context (everything else, the termination slot and the
output included, unchanged), the manifest carries the chosen installer's
locale, and the chosen data comes from a scanned key. -/
theorem selectLatest_success_spec (mc : ComparatorFactory) (r : Bool)
    (context : Context) (package : Package)
    (installedPackage : InstalledPackageVersion)
    (m : Manifest) (pv : PackageVersion) (ins : Installer)
    (hp : context.package = some package)
    (hi : context.installedPackageVersion = some installedPackage)
    (hscan : scanVersionKeys (mc installedPackage.metadata) package
        (parseVersion installedPackage.versionString) false package.versionKeys
      = ScanResult.found m pv ins) :
    SelectLatestApplicableUpdate mc r context =
      Except.ok { context with
        manifest := some m, packageVersion := some pv, installer := some ins }
    ∧ ∃ key ∈ package.versionKeys,
        pv = package.getAvailableVersion key
        ∧ (mc installedPackage.metadata pv.manifest).1 = some ins
        ∧ m = pv.manifest.ApplyLocale ins.locale := by
  refine ⟨?_, scanVersionKeys_found_spec _ _ _ _ _ _ _ _ hscan⟩
  rw [selectLatest_eq mc r context package installedPackage hp hi, hscan]

/-- C7 witness: a one-key package whose installer is selected; the step
populates the three data items with the locale applied. -/
theorem selectLatest_success_spec_witness :
    SelectLatestApplicableUpdate c7Comparator true c7Context =
      Except.ok { c7Context with
        manifest := some (c7Manifest30.ApplyLocale "fr-FR"),
        packageVersion := some c7PackageVersion30,
        installer := some c7InstallerSel } :=
  (selectLatest_success_spec c7Comparator true c7Context c7Package c7Installed
    (c7Manifest30.ApplyLocale "fr-FR") c7PackageVersion30 c7InstallerSel rfl rfl
    (by decide)).1

/-- C8: the step terminates the context with the update-not-applicable code iff
the scan ends without a selection, and no other termination code is ever
produced by it. -/
theorem selectLatest_termination_spec (mc : ComparatorFactory) (r : Bool)
    (context : Context) (package : Package)
    (installedPackage : InstalledPackageVersion)
    (hp : context.package = some package)
    (hi : context.installedPackageVersion = some installedPackage)
    (ht : context.termination = none) :
    ∃ c, SelectLatestApplicableUpdate mc r context = Except.ok c
      ∧ (c.termination = some APPINSTALLER_CLI_ERROR_UPDATE_NOT_APPLICABLE ↔
          ∃ b, scanVersionKeys (mc installedPackage.metadata) package
              (parseVersion installedPackage.versionString) false package.versionKeys
            = ScanResult.notFound b)
      ∧ (c.termination = none ∨
          c.termination = some APPINSTALLER_CLI_ERROR_UPDATE_NOT_APPLICABLE) := by
  rw [selectLatest_eq mc r context package installedPackage hp hi]
  cases hscan : scanVersionKeys (mc installedPackage.metadata) package
      (parseVersion installedPackage.versionString) false package.versionKeys with
  | found m pv ins =>
    refine ⟨_, rfl, ?_, Or.inl ht⟩
    constructor
    · intro h
      rw [show ({ context with
          manifest := some m, packageVersion := some pv,
          installer := some ins } : Context).termination = context.termination from rfl,
        ht] at h
      exact absurd h (by simp)
    · rintro ⟨b, hb⟩
      exact ScanResult.noConfusion hb
  | notFound b =>
    exact ⟨_, rfl, ⟨fun _ => ⟨b, rfl⟩, fun _ => rfl⟩, Or.inr rfl⟩

/-- C8 witness: a package with an empty key list — the scan ends without a
selection and the step terminates with the not-applicable code. -/
theorem selectLatest_termination_spec_witness :
    ∃ c, SelectLatestApplicableUpdate c8Comparator true c8Context = Except.ok c
      ∧ c.termination = some APPINSTALLER_CLI_ERROR_UPDATE_NOT_APPLICABLE := by
  obtain ⟨c, hc, hiff, _⟩ :=
    selectLatest_termination_spec c8Comparator true c8Context c8Package c8Installed
      rfl rfl rfl
  exact ⟨c, hc, hiff.mpr ⟨false, rfl⟩⟩

/-- C9: `EnsureUpdateVersionApplicable` applies the identical predicate
`IsUpdateVersionApplicable` to the installed version and the context's current
`Manifest` version; when the predicate holds it changes nothing, and when it
fails it terminates with the same update-not-applicable code. -/
theorem ensureUpdateVersionApplicable_spec (context : Context)
    (installedPackage : InstalledPackageVersion) (manifest : Manifest)
    (hi : context.installedPackageVersion = some installedPackage)
    (hm : context.manifest = some manifest) :
    (IsUpdateVersionApplicable (parseVersion installedPackage.versionString)
        (parseVersion manifest.version) = true →
      EnsureUpdateVersionApplicable context = Except.ok context)
    ∧ (IsUpdateVersionApplicable (parseVersion installedPackage.versionString)
        (parseVersion manifest.version) = false →
      EnsureUpdateVersionApplicable context =
        Except.ok { context with
          output := context.output ++ [ResourceString.UpdateNotApplicable],
          termination := some APPINSTALLER_CLI_ERROR_UPDATE_NOT_APPLICABLE }) := by
  constructor <;> intro h <;> simp [EnsureUpdateVersionApplicable, hi, hm, h]

/-- C9 witness: manifest `3.0` over installed `2.0` passes unchanged; manifest
`1.0` over installed `2.0` terminates with the not-applicable code. -/
theorem ensureUpdateVersionApplicable_spec_witness :
    EnsureUpdateVersionApplicable c9ContextFresh = Except.ok c9ContextFresh
    ∧ EnsureUpdateVersionApplicable c9ContextStale =
        Except.ok { c9ContextStale with
          output := c9ContextStale.output ++ [ResourceString.UpdateNotApplicable],
          termination := some APPINSTALLER_CLI_ERROR_UPDATE_NOT_APPLICABLE } :=
  ⟨(ensureUpdateVersionApplicable_spec c9ContextFresh c9Installed c9ManifestNew rfl rfl).1
      (by decide),
   (ensureUpdateVersionApplicable_spec c9ContextStale c9Installed c9ManifestOld rfl rfl).2
      (by decide)⟩

/-- C10: the step constructed with reporting disabled (as `UpdateAllApplicable`
constructs it) produces the same data, the same termination and the same
error as with reporting enabled, and writes nothing at all to the reporter. -/
theorem selectLatest_reporting_frame (mc : ComparatorFactory) (context : Context) :
    (∀ c, SelectLatestApplicableUpdate mc false context = Except.ok c →
      c.output = context.output
      ∧ ∃ c', SelectLatestApplicableUpdate mc true context = Except.ok c'
          ∧ c.package = c'.package
          ∧ c.installedPackageVersion = c'.installedPackageVersion
          ∧ c.manifest = c'.manifest
          ∧ c.packageVersion = c'.packageVersion
          ∧ c.installer = c'.installer
          ∧ c.packagesToInstall = c'.packagesToInstall
          ∧ c.searchResult = c'.searchResult
          ∧ c.termination = c'.termination)
    ∧ (∀ e, SelectLatestApplicableUpdate mc false context = Except.error e →
        SelectLatestApplicableUpdate mc true context = Except.error e) := by
  cases hp : context.package with
  | none =>
    have h0 := selectLatest_error_of_missing mc false context (Or.inl hp)
    have h1 := selectLatest_error_of_missing mc true context (Or.inl hp)
    constructor
    · intro c hc
      rw [h0] at hc
      exact absurd hc (by simp)
    · intro e he
      rw [h0] at he
      injection he with h
      rw [← h]
      exact h1
  | some package =>
    cases hi : context.installedPackageVersion with
    | none =>
      have h0 := selectLatest_error_of_missing mc false context (Or.inr hi)
      have h1 := selectLatest_error_of_missing mc true context (Or.inr hi)
      constructor
      · intro c hc
        rw [h0] at hc
        exact absurd hc (by simp)
      · intro e he
        rw [h0] at he
        injection he with h
        rw [← h]
        exact h1
    | some installedPackage =>
      cases hscan : scanVersionKeys (mc installedPackage.metadata) package
          (parseVersion installedPackage.versionString) false package.versionKeys with
      | found m pv ins =>
        have hfalse : SelectLatestApplicableUpdate mc false context =
            Except.ok { context with
              manifest := some m, packageVersion := some pv, installer := some ins } := by
          rw [selectLatest_eq mc false context package installedPackage hp hi, hscan]
        have htrue : SelectLatestApplicableUpdate mc true context =
            Except.ok { context with
              manifest := some m, packageVersion := some pv, installer := some ins } := by
          rw [selectLatest_eq mc true context package installedPackage hp hi, hscan]
        constructor
        · intro c hc
          rw [hfalse] at hc
          injection hc with h
          subst h
          exact ⟨rfl, _, htrue, rfl, rfl, rfl, rfl, rfl, rfl, rfl, rfl⟩
        · intro e he
          rw [hfalse] at he
          exact absurd he (by simp)
      | notFound b =>
        have hfalse : SelectLatestApplicableUpdate mc false context =
            Except.ok { context with
              termination := some APPINSTALLER_CLI_ERROR_UPDATE_NOT_APPLICABLE } := by
          rw [selectLatest_eq mc false context package installedPackage hp hi, hscan]
          rfl
        have htrue : SelectLatestApplicableUpdate mc true context =
            Except.ok { context with
              output := context.output ++
                [if b then ResourceString.UpgradeDifferentInstallTechnologyInNewerVersions
                 else ResourceString.UpdateNotApplicable],
              termination := some APPINSTALLER_CLI_ERROR_UPDATE_NOT_APPLICABLE } := by
          rw [selectLatest_eq mc true context package installedPackage hp hi, hscan]
          cases b <;> rfl
        constructor
        · intro c hc
          rw [hfalse] at hc
          injection hc with h
          subst h
          exact ⟨rfl, _, htrue, rfl, rfl, rfl, rfl, rfl, rfl, rfl, rfl⟩
        · intro e he
          rw [hfalse] at he
          exact absurd he (by simp)

/-- C10 witness: on the one-key older package, the silent run terminates with
the not-applicable code and writes nothing; the reporting run produces the
same data and termination. -/
theorem selectLatest_reporting_frame_witness :
    c10Result.output = c10Context.output
    ∧ ∃ c', SelectLatestApplicableUpdate c10Comparator true c10Context = Except.ok c'
        ∧ c10Result.package = c'.package
        ∧ c10Result.installedPackageVersion = c'.installedPackageVersion
        ∧ c10Result.manifest = c'.manifest
        ∧ c10Result.packageVersion = c'.packageVersion
        ∧ c10Result.installer = c'.installer
        ∧ c10Result.packagesToInstall = c'.packagesToInstall
        ∧ c10Result.searchResult = c'.searchResult
        ∧ c10Result.termination = c'.termination :=
  (selectLatest_reporting_frame c10Comparator c10Context).1 c10Result rfl

/-- C3: evaluation at the failing input — a clone whose
`GetInstalledPackageVersion` terminates with a code different from the
update-not-applicable code (here 999) falls through the `continue` check, the
loop reads the never-populated `PackageVersion` from the terminated clone, and
the whole batch aborts with the missing-data contract violation instead of
processing the remaining match. -/
theorem updateAllApplicable_aborts_on_other_termination :
    UpdateAllApplicable c3GetInstalledBad c3Comparator c3Install c3Context =
      Except.error "missing required context data"
    ∧ (999 : Nat) ≠ APPINSTALLER_CLI_ERROR_UPDATE_NOT_APPLICABLE :=
  ⟨rfl, by decide⟩

/-- C4: a `PackageToInstall` is appended only if no existing entry shares its
(package Id, package version, source identifier) triple — first occurrence
wins, later duplicates are dropped; concretely, the three-match batch where
two matches resolve to the same triple yields exactly the two entries
`[c4Entry1, c4Entry3]` handed to the batch-install collaborator. -/
theorem addToPackagesToInstall_dedup_spec :
    (∀ (l : List PackageToInstall) (package : PackageToInstall),
      (∃ e ∈ l, isSamePackageToInstall e package = true) →
      AddToPackagesToInstallIfNotPresent l package = l)
    ∧ (∀ (l : List PackageToInstall) (package : PackageToInstall),
      (∀ e ∈ l, isSamePackageToInstall e package = false) →
      AddToPackagesToInstallIfNotPresent l package = l ++ [package])
    ∧ (∀ imp, UpdateAllApplicable c4GetInstalled c4Comparator imp c4Context =
        runStep (imp ResourceString.InstallAndUpgradeCommandsReportDependencies
            APPINSTALLER_CLI_ERROR_UPDATE_ALL_HAS_FAILURE
            [APPINSTALLER_CLI_ERROR_UPDATE_NOT_APPLICABLE])
          (Except.ok { c4Context with
            packagesToInstall := some [c4Entry1, c4Entry3] })) := by
  refine ⟨?_, ?_, fun imp => rfl⟩
  · rintro l package ⟨e, he, hsame⟩
    unfold AddToPackagesToInstallIfNotPresent
    rw [if_pos]
    exact List.any_eq_true.mpr ⟨e, he, hsame⟩
  · intro l package h
    unfold AddToPackagesToInstallIfNotPresent
    rw [if_neg]
    rw [List.any_eq_true]
    rintro ⟨e, he, hs⟩
    rw [h e he] at hs
    exact Bool.noConfusion hs

/-- C4 witness: the dedup helper evaluated on a duplicate and on a distinct
entry, and the three-match batch evaluated with a trivial batch-install
collaborator. -/
theorem addToPackagesToInstall_dedup_spec_witness :
    AddToPackagesToInstallIfNotPresent [c4Entry1] c4Entry1 = [c4Entry1]
    ∧ AddToPackagesToInstallIfNotPresent [c4Entry1] c4Entry3 = [c4Entry1] ++ [c4Entry3]
    ∧ UpdateAllApplicable c4GetInstalled c4Comparator c4Install c4Context =
        runStep (c4Install ResourceString.InstallAndUpgradeCommandsReportDependencies
            APPINSTALLER_CLI_ERROR_UPDATE_ALL_HAS_FAILURE
            [APPINSTALLER_CLI_ERROR_UPDATE_NOT_APPLICABLE])
          (Except.ok { c4Context with
            packagesToInstall := some [c4Entry1, c4Entry3] }) :=
  ⟨addToPackagesToInstall_dedup_spec.1 [c4Entry1] c4Entry1 (by decide),
   addToPackagesToInstall_dedup_spec.2.1 [c4Entry1] c4Entry3 (by decide),
   addToPackagesToInstall_dedup_spec.2.2 c4Install⟩

/-- Loop lemma for C6: when every match's clone pipeline terminates with the
not-applicable code and writes nothing to the shared sink, the loop changes
nothing — no entry is collected and no update is found. -/
theorem updateAllLoop_all_not_applicable
    (gipv : Context → Except String Context) (mc : ComparatorFactory) :
    ∀ (ms : List SearchMatch) (n : Nat) (context : Context)
      (packagesToInstall : List PackageToInstall) (found : Bool),
      (∀ (parent : Context) (m : SearchMatch), m ∈ ms →
        ∃ c, updateItemPipeline gipv mc parent m.package = Except.ok c
          ∧ c.termination = some APPINSTALLER_CLI_ERROR_UPDATE_NOT_APPLICABLE
          ∧ c.output = parent.output) →
      updateAllLoop gipv mc n context packagesToInstall found ms =
        Except.ok (context, packagesToInstall, found) := by
  intro ms
  induction ms with
  | nil => intro n context pkgs found _; rfl
  | cons m rest ih =>
    intro n context pkgs found H
    obtain ⟨c, hc, hterm, hout⟩ := H context m (List.mem_cons_self _ _)
    simp only [updateAllLoop, hc, hterm, beq_self_eq_true, if_true]
    rw [hout]
    exact ih (n + 1) _ pkgs found
      (fun parent m hm => H parent m (List.mem_cons_of_mem _ hm))

/-- C6: if no match produces a selectable update (every clone terminating
not-applicable and writing nothing), `UpdateAllApplicable` reports the
nothing-to-update message exactly once, never invokes the batch-install
collaborator (the result is the same for every collaborator `imp` and does
not mention it), and changes nothing else on the parent — in particular it
sets no termination. -/
theorem updateAllApplicable_nothing_spec
    (gipv : Context → Except String Context) (mc : ComparatorFactory)
    (context : Context) (searchMatches : List SearchMatch)
    (hs : context.searchResult = some searchMatches)
    (H : ∀ (parent : Context) (m : SearchMatch), m ∈ searchMatches →
      ∃ c, updateItemPipeline gipv mc parent m.package = Except.ok c
        ∧ c.termination = some APPINSTALLER_CLI_ERROR_UPDATE_NOT_APPLICABLE
        ∧ c.output = parent.output) :
    ∀ imp, UpdateAllApplicable gipv mc imp context =
      Except.ok { context with
        output := context.output ++ [ResourceString.UpdateNotApplicable] } := by
  intro imp
  simp only [UpdateAllApplicable, hs,
    updateAllLoop_all_not_applicable gipv mc searchMatches 1 context [] false H]
  simp [← hs]

/-- C6 witness: a single-match batch whose only key is older than the
installed version — the parent gets exactly one not-applicable message, no
termination, and the trivial batch-install collaborator is never invoked. -/
theorem updateAllApplicable_nothing_spec_witness :
    UpdateAllApplicable c6GetInstalled c6Comparator c6Install c6Context =
      Except.ok { c6Context with output := [ResourceString.UpdateNotApplicable] } :=
  updateAllApplicable_nothing_spec c6GetInstalled c6Comparator c6Context
    [⟨c6Package⟩] rfl
    (fun parent m hm => by
      rw [List.mem_singleton] at hm
      subst hm
      exact ⟨_, rfl, rfl, rfl⟩)
    c6Install

end UpdateFlow
